import Mathlib

/-!
Shallow embedding of the cart/order pricing and status-lifecycle engine of the
shoes-store backend.  Money values are modelled as rationals, quantities and
stock counts as integers, timestamps as natural numbers.  Each definition
mirrors one JavaScript function of the source (Mongoose model methods and the
Express route handlers built on them).
-/

deriving instance DecidableEq for Except

/-- A product variant (`variants` entries of the product schema): a
color/size-specific stock-keeping unit. -/
structure Variant where
  color : Option String
  size : Option String
  stock : Int
deriving DecidableEq

/-- The product fields the cart/order engine reads (product schema). -/
structure Product where
  id : Nat
  name : String
  price : ℚ
  images : List String
  sku : Option String
  stock : Int
  variants : List Variant
  isActive : Bool
deriving DecidableEq

/-- A cart line item (items entries of the cart schema): snapshot of the
product at time of add plus quantity and variant selectors. -/
structure LineItem where
  product : Nat
  name : String
  price : ℚ
  quantity : Int
  color : Option String
  size : Option String
  image : String
  sku : Option String
  inStock : Bool
  maxQuantity : Int
deriving DecidableEq

/-- Coupon discount kind (`coupon.type` enum of the cart schema). -/
inductive CouponType
  | percentage
  | fixed
deriving DecidableEq

/-- An applied coupon (the `coupon` subdocument of the cart schema). -/
structure Coupon where
  code : String
  discount : ℚ
  type : CouponType
deriving DecidableEq

/-- The cart state the engine manipulates (cart schema): line items, the five
computed money fields and the optional active coupon. -/
structure Cart where
  items : List LineItem
  subtotal : ℚ
  tax : ℚ
  shipping : ℚ
  discount : ℚ
  total : ℚ
  coupon : Option Coupon
deriving DecidableEq

/-- `cartSchema.methods.calculateTotals`: recomputes subtotal, tax (8.5%),
shipping (free from $50, else $5.99) and total; the discount field is assigned
only when a coupon with positive discount is present, otherwise it keeps its
previous value, exactly as in the source. -/
def Cart.calculateTotals (c : Cart) : Cart :=
  let subtotal := c.items.foldl (fun total item => total + item.price * (item.quantity : ℚ)) 0
  let tax := subtotal * (85 / 1000 : ℚ)
  let shipping : ℚ := if subtotal ≥ 50 then 0 else 599 / 100
  let discount :=
    match c.coupon with
    | some cp =>
        if cp.discount > 0 then
          let discountAmount :=
            match cp.type with
            | CouponType.percentage => subtotal * (cp.discount / 100)
            | CouponType.fixed => cp.discount
          min discountAmount subtotal
        else c.discount
    | none => c.discount
  { c with subtotal := subtotal, tax := tax, shipping := shipping, discount := discount,
           total := subtotal + tax + shipping - discount }

/-- The matching predicate of `addItem`'s `findIndex`: same product reference
and identical color and size selectors. -/
def itemMatches (pid : Nat) (color size : Option String) (item : LineItem) : Bool :=
  item.product == pid && item.color == color && item.size == size

/-- Applies `f` to the first element satisfying `p`, leaving the rest
unchanged; models the JavaScript pattern of `findIndex`/`find` followed by an
in-place mutation of the found element. -/
def updateFirst (p : α → Bool) (f : α → α) : List α → List α
  | [] => []
  | x :: xs => if p x then f x :: xs else x :: updateFirst p f xs

/-- The line-item snapshot pushed by `addItem` when no matching item exists:
price/name/image copied from the product, `maxQuantity` set to
`Math.min(product.stock, 10)`. -/
def newLineItem (p : Product) (quantity : Int) (color size : Option String) : LineItem :=
  { product := p.id, name := p.name, price := p.price, quantity := quantity,
    color := color, size := size, image := p.images.headD "",
    sku := p.sku, inStock := decide (p.stock > 0), maxQuantity := min p.stock 10 }

/-- `cartSchema.methods.addItem`: if an item with identical product+variant
exists, add the quantity to it and clamp at that item's `maxQuantity`; else
push a new snapshot; then recompute totals. -/
def Cart.addItem (c : Cart) (p : Product) (quantity : Int) (color size : Option String) : Cart :=
  if c.items.any (itemMatches p.id color size) then
    let bump := fun (item : LineItem) =>
      let q := item.quantity + quantity
      { item with quantity := if q > item.maxQuantity then item.maxQuantity else q }
    Cart.calculateTotals
      { c with items := updateFirst (itemMatches p.id color size) bump c.items }
  else
    Cart.calculateTotals { c with items := c.items ++ [newLineItem p quantity color size] }

/-- `cartSchema.methods.applyCoupon`: stores the coupon and recomputes. -/
def Cart.applyCoupon (c : Cart) (code : String) (discount : ℚ) (type : CouponType) : Cart :=
  Cart.calculateTotals { c with coupon := some { code := code, discount := discount, type := type } }

/-- `cartSchema.methods.removeCoupon`: clears the coupon and recomputes. -/
def Cart.removeCoupon (c : Cart) : Cart :=
  Cart.calculateTotals { c with coupon := none }

/-- `cartSchema.methods.clearCart`: empties the cart and zeroes every computed
field explicitly. -/
def Cart.clearCart (c : Cart) : Cart :=
  { c with items := [], subtotal := 0, tax := 0, shipping := 0, discount := 0, total := 0,
           coupon := none }

/-- `productSchema.methods.updateStock`: decrements the variant-specific stock
when both color and size are given (first matching variant), else the
top-level stock, flooring the result at 0. -/
def Product.updateStock (p : Product) (quantity : Int) (color size : Option String) : Product :=
  match color, size with
  | some c, some s =>
      let dec := fun (v : Variant) =>
        let st := v.stock - quantity
        { v with stock := if st < 0 then 0 else st }
      { p with variants :=
          updateFirst (fun v => v.color == some c && v.size == some s) dec p.variants }
  | _, _ =>
      let st := p.stock - quantity
      { p with stock := if st < 0 then 0 else st }

/-- The order status enumeration of the order schema. -/
inductive OrderStatus
  | pending
  | processing
  | shipped
  | delivered
  | cancelled
  | refunded
deriving DecidableEq, BEq

/-- An order line item (items entries of the order schema). -/
structure OrderItem where
  product : Nat
  name : String
  price : ℚ
  quantity : Int
  color : Option String
  size : Option String
  image : String
deriving DecidableEq

/-- Refund request status enumeration (`refundInfo.status`). -/
inductive RefundStatus
  | pending
  | approved
  | rejected
  | completed
deriving DecidableEq

/-- The `refundInfo` subdocument of the order schema. -/
structure RefundInfo where
  amount : ℚ
  reason : String
  status : RefundStatus
deriving DecidableEq

/-- A `statusHistory` entry: status value, timestamp, optional note. -/
structure StatusEntry where
  status : OrderStatus
  time : Nat
  note : Option String
deriving DecidableEq

/-- The `shippingInfo` timestamps touched by the lifecycle code. -/
structure ShippingInfo where
  shippedAt : Option Nat
  deliveredAt : Option Nat
  estimatedDelivery : Option Nat
deriving DecidableEq

/-- The order fields the lifecycle engine reads and writes (order schema). -/
structure Order where
  orderNumber : Option String
  items : List OrderItem
  itemsPrice : ℚ
  taxPrice : ℚ
  shippingPrice : ℚ
  totalPrice : ℚ
  status : OrderStatus
  statusHistory : List StatusEntry
  shippingInfo : ShippingInfo
  refundInfo : Option RefundInfo
  actualDeliveryDate : Option Nat
deriving DecidableEq

/-- Zero-padding as done by `String.padStart(width, '0')`: prepends zeros up
to `width`, never truncating. -/
def padZero (s : String) (width : Nat) : String :=
  if s.length ≥ width then s else String.mk (List.replicate (width - s.length) '0') ++ s

/-- The order-number generation of the pre-save hook: last two digits of the
year, month and day zero-padded to two digits, then the count of same-day
orders plus one zero-padded to three digits. -/
def genOrderNumber (year month day count : Nat) : String :=
  padZero (toString (year % 100)) 2 ++ padZero (toString month) 2 ++
    padZero (toString day) 2 ++ padZero (toString (count + 1)) 3

/-- Whether Mongoose considers the `status` path modified at save time:
always for a newly created document (`orig = none`), else when the current
value differs from the loaded one. -/
def statusModified (orig : Option Order) (o : Order) : Bool :=
  match orig with
  | none => true
  | some og => decide (o.status ≠ og.status)

/-- `orderSchema.pre('save')`: generates the order number when it is not yet
set (from date and same-day order count), and appends a history entry
(without note) when the status path is modified. -/
def Order.preSave (orig : Option Order) (o : Order) (year month day count now : Nat) : Order :=
  let o1 :=
    match o.orderNumber with
    | none => { o with orderNumber := some (genOrderNumber year month day count) }
    | some _ => o
  if statusModified orig o then
    { o1 with statusHistory := o1.statusHistory ++ [⟨o1.status, now, none⟩] }
  else o1

/-- `orderSchema.methods.updateStatus`: sets the status, appends a history
entry carrying the note, and stamps `shippedAt` / `deliveredAt` as side
effects of reaching those statuses. -/
def Order.updateStatus (o : Order) (newStatus : OrderStatus) (note : String) (now : Nat) :
    Order :=
  let o1 := { o with status := newStatus,
                     statusHistory := o.statusHistory ++ [⟨newStatus, now, some note⟩] }
  match newStatus with
  | OrderStatus.shipped =>
      { o1 with shippingInfo := { o1.shippingInfo with shippedAt := some now } }
  | OrderStatus.delivered =>
      { o1 with shippingInfo := { o1.shippingInfo with deliveredAt := some now },
                actualDeliveryDate := some now }
  | _ => o1

/-- `orderSchema.methods.canBeCancelled`. -/
def Order.canBeCancelled (o : Order) : Bool :=
  ([OrderStatus.pending, OrderStatus.processing, OrderStatus.shipped]).contains o.status

/-- `orderSchema.methods.canBeRefunded`. -/
def Order.canBeRefunded (o : Order) : Bool :=
  ([OrderStatus.delivered, OrderStatus.shipped]).contains o.status

/-- Whitespace trimming on both ends, as `String.prototype.trim` /
express-validator's `.trim()`: drops leading and trailing whitespace
characters. -/
def strTrim (s : String) : String :=
  ⟨((s.data.dropWhile Char.isWhitespace).reverse.dropWhile Char.isWhitespace).reverse⟩

/-- Decides whether an `Except` result is a success. -/
def isOkE (e : Except ε α) : Bool :=
  match e with
  | Except.ok _ => true
  | Except.error _ => false

/-- A line item of the order-creation request body. -/
structure ReqItem where
  product : Nat
  quantity : Int
  color : Option String
  size : Option String
deriving DecidableEq

/-- The per-item loop of the `POST /api/orders` handler: rejects an item
without color or size, rejects a missing product, otherwise snapshots the
live product data and accumulates the items price.  No stock adjustment
happens anywhere in this loop. -/
def buildOrderItems (ps : List Product) : List ReqItem → Except String (List OrderItem × ℚ)
  | [] => Except.ok ([], 0)
  | item :: rest =>
    match item.color, item.size with
    | some _, some _ =>
      match ps.find? (fun p => p.id == item.product) with
      | none => Except.error "Product not found"
      | some p =>
        match buildOrderItems ps rest with
        | Except.error e => Except.error e
        | Except.ok (os, price) =>
            Except.ok
              ({ product := p.id, name := p.name, price := p.price,
                 quantity := item.quantity, color := item.color, size := item.size,
                 image := p.images.headD "" } :: os,
               p.price * (item.quantity : ℚ) + price)
    | _, _ => Except.error "Each item must have a color and size."

/-- The `POST /api/orders` handler: validates the request, computes totals
from live product prices, builds the order document (status `pending`, empty
history) and saves it, which runs the pre-save hook.  The product list is
returned unchanged: the handler performs no stock update. -/
def createOrder (items : List ReqItem) (clientOrderNumber : Option String)
    (ps : List Product) (year month day count now : Nat) :
    Except String (Order × List Product) :=
  if items.isEmpty then Except.error "At least one item is required"
  else
    match buildOrderItems ps items with
    | Except.error e => Except.error e
    | Except.ok (orderItems, itemsPrice) =>
      let taxPrice := itemsPrice * (85 / 1000 : ℚ)
      let shippingPrice : ℚ := if itemsPrice ≥ 50 then 0 else 599 / 100
      let totalPrice := itemsPrice + taxPrice + shippingPrice
      let order : Order :=
        { orderNumber := clientOrderNumber, items := orderItems,
          itemsPrice := itemsPrice, taxPrice := taxPrice, shippingPrice := shippingPrice,
          totalPrice := totalPrice, status := OrderStatus.pending, statusHistory := [],
          shippingInfo := { shippedAt := none, deliveredAt := none, estimatedDelivery := none },
          refundInfo := none, actualDeliveryDate := none }
      Except.ok (Order.preSave none order year month day count now, ps)

/-- The status-string parsing of the `PUT /api/orders/:id/status` handler:
the request is rejected exactly when the string is not one of the six
enumerated statuses. -/
def parseStatus (s : String) : Option OrderStatus :=
  if s = "pending" then some OrderStatus.pending
  else if s = "processing" then some OrderStatus.processing
  else if s = "shipped" then some OrderStatus.shipped
  else if s = "delivered" then some OrderStatus.delivered
  else if s = "cancelled" then some OrderStatus.cancelled
  else if s = "refunded" then some OrderStatus.refunded
  else none

/-- The `PUT /api/orders/:id/status` handler after authentication: parses the
status, calls `updateStatus`, applies the extra shipped/delivered timestamp
updates done in the route, and saves (running the pre-save hook).  No check
of the current status is performed. -/
def statusRoute (o : Order) (status note : String) (now year month day count : Nat) :
    Except String Order :=
  match parseStatus status with
  | none => Except.error "Invalid status"
  | some st =>
    let o1 := o.updateStatus st note now
    let o2 :=
      match st with
      | OrderStatus.shipped =>
          { o1 with shippingInfo :=
              { o1.shippingInfo with shippedAt := some now,
                                     estimatedDelivery := some (now + 259200000) } }
      | OrderStatus.delivered =>
          { o1 with shippingInfo := { o1.shippingInfo with deliveredAt := some now },
                    actualDeliveryDate := some now }
      | _ => o1
    Except.ok (Order.preSave (some o) o2 year month day count now)

/-- The stock restoration done for one order line item in the cancel route:
increments the first matching variant's stock when both color and size are
present, else the top-level stock.  No flooring or capping. -/
def restoreItemStock (item : OrderItem) (p : Product) : Product :=
  match item.color, item.size with
  | some c, some s =>
      let inc := fun (v : Variant) => { v with stock := v.stock + item.quantity }
      { p with variants :=
          updateFirst (fun v => v.color == some c && v.size == some s) inc p.variants }
  | _, _ => { p with stock := p.stock + item.quantity }

/-- The stock-restoration loop of the cancel route: each line item looks up
its product (first match by id; a missing product is skipped) and restores
its quantity. -/
def restoreStock (items : List OrderItem) (ps : List Product) : List Product :=
  items.foldl
    (fun acc item => updateFirst (fun p => p.id == item.product) (restoreItemStock item) acc)
    ps

/-- The `PUT /api/orders/:id/cancel` handler after authentication: rejects
unless `canBeCancelled`, else records the `cancelled` status, restores the
stock of every line item and saves (running the pre-save hook). -/
def cancelRoute (o : Order) (ps : List Product) (now year month day count : Nat) :
    Except String (Order × List Product) :=
  if o.canBeCancelled then
    let o1 := o.updateStatus OrderStatus.cancelled "Cancelled by customer" now
    let ps1 := restoreStock o.items ps
    Except.ok (Order.preSave (some o) o1 year month day count now, ps1)
  else Except.error "Order cannot be cancelled at this stage"

/-- The `POST /api/orders/:id/refund` handler after authentication: rejects
an empty (trimmed) reason, rejects unless `canBeRefunded`, rejects when an
existing refund request has a status other than `pending`, else stores a
pending refund whose amount defaults to the order total (also when the given
amount is 0, mirroring the JavaScript truthiness of `amount || totalPrice`). -/
def refundRoute (o : Order) (reason : String) (amount : Option ℚ) : Except String Order :=
  if strTrim reason = "" then Except.error "Refund reason is required"
  else if !o.canBeRefunded then Except.error "Order cannot be refunded at this stage"
  else if (match o.refundInfo with
           | some r => decide (r.status ≠ RefundStatus.pending)
           | none => false) then Except.error "Refund request already exists"
  else
    let amt :=
      match amount with
      | some a => if a = 0 then o.totalPrice else a
      | none => o.totalPrice
    Except.ok { o with refundInfo := some { amount := amt, reason := reason,
                                            status := RefundStatus.pending } }

/-! ### Concrete fixtures used by witnesses and counterexamples -/

/-- The 10% percentage coupon of the hardcoded coupon table. -/
def couponSAVE10 : Coupon := { code := "SAVE10", discount := 10, type := CouponType.percentage }

/-- The $55 scenario cart of the spec: $20 x 2 and $15 x 1 with `SAVE10`. -/
def cart55 : Cart :=
  { items :=
      [{ product := 1, name := "A", price := 20, quantity := 2, color := none, size := none,
         image := "", sku := none, inStock := true, maxQuantity := 10 },
       { product := 2, name := "B", price := 15, quantity := 1, color := none, size := none,
         image := "", sku := none, inStock := true, maxQuantity := 10 }],
    subtotal := 0, tax := 0, shipping := 0, discount := 0, total := 0,
    coupon := some couponSAVE10 }

/-- A one-item $10 cart with no coupon. -/
def cartC2 : Cart :=
  { items :=
      [{ product := 1, name := "Shoe", price := 10, quantity := 1, color := none, size := none,
         image := "", sku := none, inStock := true, maxQuantity := 10 }],
    subtotal := 0, tax := 0, shipping := 0, discount := 0, total := 0, coupon := none }

/-- A product with top-level stock 5 and one Red/10 variant with stock 4. -/
def prodC3 : Product :=
  { id := 1, name := "Shoe", price := 30, images := ["img"], sku := none, stock := 5,
    variants := [{ color := some "Red", size := some "10", stock := 4 }], isActive := true }

/-- An order request for two units of the Red/10 variant of product 1. -/
def reqC3 : List ReqItem := [{ product := 1, quantity := 2, color := some "Red", size := some "10" }]

/-- The order `createOrder reqC3 none [prodC3] 2024 6 15 0 0` produces
(the fallback branch is never taken: the call succeeds). -/
def ordC6 : Order :=
  match createOrder reqC3 none [prodC3] 2024 6 15 0 0 with
  | Except.ok r => r.1
  | Except.error _ =>
      { orderNumber := none, items := [], itemsPrice := 0, taxPrice := 0, shippingPrice := 0,
        totalPrice := 0, status := OrderStatus.pending, statusHistory := [],
        shippingInfo := { shippedAt := none, deliveredAt := none, estimatedDelivery := none },
        refundInfo := none, actualDeliveryDate := none }

/-- A saved pending order holding two units of product 1 with no variant
selectors. -/
def ordSaved : Order :=
  { orderNumber := some "240615001",
    items :=
      [{ product := 1, name := "Shoe", price := 30, quantity := 2, color := none,
         size := none, image := "img" }],
    itemsPrice := 60, taxPrice := 5.1, shippingPrice := 0, totalPrice := 65.1,
    status := OrderStatus.pending,
    statusHistory := [{ status := OrderStatus.pending, time := 0, note := none }],
    shippingInfo := { shippedAt := none, deliveredAt := none, estimatedDelivery := none },
    refundInfo := none, actualDeliveryDate := none }

/-- A variant-free product with top-level stock 5. -/
def prodD : Product :=
  { id := 1, name := "Shoe", price := 30, images := ["img"], sku := none, stock := 5,
    variants := [], isActive := true }

/-- The order `cancelRoute ordSaved [prodD] 0 0 0 0 0` produces. -/
def ordSavedCancelled : Order :=
  Order.preSave (some ordSaved)
    (ordSaved.updateStatus OrderStatus.cancelled "Cancelled by customer" 0) 0 0 0 0 0

/-- The product list `cancelRoute ordSaved [prodD] 0 0 0 0 0` produces. -/
def prodsRestored : List Product := restoreStock ordSaved.items [prodD]

/-- `prodD` after the cancellation restored the two units. -/
def prodDAfter : Product := { prodD with stock := 7 }

/-- `ordSaved` moved to the `cancelled` status. -/
def ordCancelled : Order := { ordSaved with status := OrderStatus.cancelled }

/-- The order `statusRoute ordCancelled "pending" "" 0 0 0 0 0` produces. -/
def ordCancelledToPending : Order :=
  Order.preSave (some ordCancelled) (ordCancelled.updateStatus OrderStatus.pending "" 0) 0 0 0 0 0

/-- `ordSaved` in the `delivered` status, with no refund request. -/
def ordD5 : Order := { ordSaved with status := OrderStatus.delivered }

/-- `ordD5` after a first, still pending refund request. -/
def ordD5a : Order :=
  { ordD5 with
    refundInfo :=
      some ({ amount := ordD5.totalPrice, reason := "damaged",
              status := RefundStatus.pending } : RefundInfo) }

/-- A cart line item for the Red/M variant of product 1 with `maxQuantity` 5. -/
def item9 : LineItem :=
  { product := 1, name := "A", price := 20, quantity := 3, color := some "Red",
    size := some "M", image := "", sku := none, inStock := true, maxQuantity := 5 }

/-- A cart already containing `item9`. -/
def cart9 : Cart :=
  { items := [item9], subtotal := 0, tax := 0, shipping := 0, discount := 0, total := 0,
    coupon := none }

/-- The product `item9` snapshots, with stock 5. -/
def p9 : Product :=
  { id := 1, name := "A", price := 20, images := [], sku := none, stock := 5,
    variants := [], isActive := true }

/-- An empty cart. -/
def cartE : Cart :=
  { items := [], subtotal := 0, tax := 0, shipping := 0, discount := 0, total := 0,
    coupon := none }

/-- A product with stock 3, so a fresh line item gets `maxQuantity` 3. -/
def prodB : Product :=
  { id := 2, name := "B", price := 20, images := [], sku := none, stock := 3,
    variants := [], isActive := true }

/-! ### Helper lemmas -/

theorem calculateTotals_items (c : Cart) : (c.calculateTotals).items = c.items := rfl

theorem foldl_add_map (f : α → ℚ) :
    ∀ (l : List α) (a : ℚ), l.foldl (fun t x => t + f x) a = a + (l.map f).sum
  | [], a => by simp
  | x :: xs, a => by
    simp only [List.foldl_cons, List.map_cons, List.sum_cons, foldl_add_map f xs (a + f x)]
    ring

theorem updateFirst_split (p : α → Bool) (f : α → α) (pre : List α) (x : α) (post : List α)
    (hpre : ∀ y ∈ pre, p y = false) (hx : p x = true) :
    updateFirst p f (pre ++ x :: post) = pre ++ f x :: post := by
  induction pre with
  | nil => simp [updateFirst, hx]
  | cons a as ih =>
    have ha : p a = false := hpre a (by simp)
    simp only [List.cons_append, updateFirst, ha, Bool.false_eq_true, if_false,
      List.cons.injEq, true_and]
    exact ih fun y hy => hpre y (by simp [hy])

theorem any_true_of_split (p : α → Bool) (pre : List α) (x : α) (post : List α)
    (hx : p x = true) : (pre ++ x :: post).any p = true :=
  List.any_eq_true.mpr ⟨x, by simp, hx⟩

theorem any_false_of_forall (p : α → Bool) (l : List α)
    (h : ∀ y ∈ l, p y = false) : l.any p = false := by
  rw [List.any_eq_false]
  intro x hx
  simp [h x hx]

theorem if_flip_min (a b : Int) : (if b < a then b else a) = min a b := by
  rw [min_def]
  split <;> split <;> omega

theorem updateStatus_status (o : Order) (ns : OrderStatus) (note : String) (now : Nat) :
    (o.updateStatus ns note now).status = ns := by
  unfold Order.updateStatus
  cases ns <;> rfl

theorem preSave_status (orig : Option Order) (o : Order) (year month day count now : Nat) :
    (Order.preSave orig o year month day count now).status = o.status := by
  unfold Order.preSave
  cases h : o.orderNumber <;> cases h2 : statusModified orig o <;> simp [h, h2]

/-! ### Claim theorems -/

/-- C1: for every list of line items and every applied coupon with positive
discount value, `calculateTotals` returns subtotal = sum of price times
quantity over the items, tax = subtotal times 8.5%, shipping = 0 when the
subtotal reaches 50 and 5.99 otherwise, discount = subtotal times value/100
for a percentage coupon and value for a fixed coupon clamped to at most the
subtotal, and total = subtotal + tax + shipping - discount with no flooring
of the total at 0. -/
theorem calculateTotals_coupon_spec (c : Cart) (cp : Coupon)
    (hc : c.coupon = some cp) (hd : 0 < cp.discount) :
    (c.calculateTotals).subtotal = (c.items.map (fun i => i.price * (i.quantity : ℚ))).sum
    ∧ (c.calculateTotals).tax = (c.calculateTotals).subtotal * (85 / 1000 : ℚ)
    ∧ (c.calculateTotals).shipping =
        (if (c.calculateTotals).subtotal ≥ 50 then (0 : ℚ) else 599 / 100)
    ∧ (c.calculateTotals).discount =
        min (match cp.type with
             | CouponType.percentage => (c.calculateTotals).subtotal * (cp.discount / 100)
             | CouponType.fixed => cp.discount)
          (c.calculateTotals).subtotal
    ∧ (c.calculateTotals).total =
        (c.calculateTotals).subtotal + (c.calculateTotals).tax + (c.calculateTotals).shipping
          - (c.calculateTotals).discount := by
  have hfold : c.items.foldl (fun total item => total + item.price * (item.quantity : ℚ)) 0
      = (c.items.map (fun i => i.price * (i.quantity : ℚ))).sum := by
    rw [foldl_add_map, zero_add]
  refine ⟨?_, ?_, ?_, ?_, ?_⟩ <;>
    simp only [Cart.calculateTotals, hc, hd, if_true, hfold]

/-- Witness for C1: the spec's own scenario cart ($20 x 2 and $15 x 1 with
the 10% coupon) satisfies the hypotheses and yields total 54.175. -/
theorem calculateTotals_coupon_spec_witness :
    cart55.coupon = some couponSAVE10 ∧ (0 : ℚ) < couponSAVE10.discount
    ∧ (cart55.calculateTotals).subtotal
        = (cart55.items.map (fun i => i.price * (i.quantity : ℚ))).sum
    ∧ (cart55.calculateTotals).subtotal = 55
    ∧ (cart55.calculateTotals).total = (54.175 : ℚ) := by
  have h := calculateTotals_coupon_spec cart55 couponSAVE10 rfl (by norm_num [couponSAVE10])
  refine ⟨rfl, by norm_num [couponSAVE10], h.1, ?_, ?_⟩ <;>
    norm_num [cart55, couponSAVE10, Cart.calculateTotals, min_def]

/-- C2 fails on the code: after `removeCoupon` the discount field keeps the
value the removed coupon produced instead of the 0 that `calculateTotals`
derives from the items and (absent) coupon alone, because the discount field
is only assigned when a coupon with positive discount is present.  On a $10
cart, applying the 10% coupon and removing it leaves discount 1 and total
15.84. -/
theorem removeCoupon_stale_discount :
    ((cartC2.applyCoupon "SAVE10" 10 CouponType.percentage).removeCoupon).coupon = none
    ∧ ((cartC2.applyCoupon "SAVE10" 10 CouponType.percentage).removeCoupon).discount = 1
    ∧ (Cart.calculateTotals { cartC2 with coupon := none }).discount = 0
    ∧ ((cartC2.applyCoupon "SAVE10" 10 CouponType.percentage).removeCoupon).total
        = (15.84 : ℚ) := by
  refine ⟨rfl, ?_, rfl, ?_⟩ <;>
    norm_num [cartC2, Cart.applyCoupon, Cart.removeCoupon, Cart.calculateTotals, min_def]

/-- C3 fails on the code: the order-creation handler never adjusts stock.
Creating an order for two units of the Red/10 variant of a product leaves the
product list unchanged (variant stock still 4), although `updateStock` — the
decrement-floored-at-0 operation the claim describes — exists and would have
produced variant stock 2. -/
theorem createOrder_leaves_stock_unchanged :
    ((createOrder reqC3 none [prodC3] 2024 6 15 0 0).toOption.map (fun r => r.2))
      = some [prodC3]
    ∧ prodC3.variants.map (fun v => v.stock) = [4]
    ∧ ((prodC3.updateStock 2 (some "Red") (some "10")).variants.map (fun v => v.stock)) = [2]
      := ⟨rfl, by decide, by decide⟩

/-- C4: the cancel route succeeds exactly when the order status is pending,
processing or shipped, failing with the invalid-stage error otherwise; on
success the order status is recorded as cancelled and the products are the
result of restoring, for every line item, its quantity onto the matching
product (variant-specific stock when color and size are present, else the
top-level stock). -/
theorem cancelRoute_spec (o : Order) (ps : List Product) (now year month day count : Nat) :
    (isOkE (cancelRoute o ps now year month day count) = true
        ↔ (o.status = OrderStatus.pending ∨ o.status = OrderStatus.processing
            ∨ o.status = OrderStatus.shipped))
    ∧ (∀ o' ps', cancelRoute o ps now year month day count = Except.ok (o', ps') →
        o'.status = OrderStatus.cancelled ∧ ps' = restoreStock o.items ps)
    ∧ (∀ item p, (item.color = none ∨ item.size = none) →
        (restoreItemStock item p).stock = p.stock + item.quantity)
    ∧ (∀ item p cc ss, item.color = some cc → item.size = some ss →
        (restoreItemStock item p).variants =
          updateFirst (fun v => v.color == some cc && v.size == some ss)
            (fun v => { v with stock := v.stock + item.quantity }) p.variants)
    ∧ (¬(o.status = OrderStatus.pending ∨ o.status = OrderStatus.processing
          ∨ o.status = OrderStatus.shipped) →
        cancelRoute o ps now year month day count
          = Except.error "Order cannot be cancelled at this stage") := by
  have hstat : ∀ s : OrderStatus,
      (([OrderStatus.pending, OrderStatus.processing, OrderStatus.shipped]).contains s = true)
        ↔ (s = OrderStatus.pending ∨ s = OrderStatus.processing ∨ s = OrderStatus.shipped) := by
    intro s
    cases s <;> decide
  refine ⟨?_, ?_, ?_, ?_, ?_⟩
  · rw [← hstat o.status]
    cases hc : o.canBeCancelled with
    | true =>
        have hc' : ([OrderStatus.pending, OrderStatus.processing,
            OrderStatus.shipped]).contains o.status = true := hc
        simp [cancelRoute, hc, isOkE, hc']
    | false =>
        have hc' : ([OrderStatus.pending, OrderStatus.processing,
            OrderStatus.shipped]).contains o.status = false := hc
        simp [cancelRoute, hc, isOkE, hc']
  · intro o' ps' h
    unfold cancelRoute at h
    cases hc : o.canBeCancelled with
    | true =>
        rw [hc] at h
        simp only [if_true] at h
        rw [Except.ok.injEq, Prod.mk.injEq] at h
        obtain ⟨h1, h2⟩ := h
        subst h1
        subst h2
        refine ⟨?_, rfl⟩
        rw [preSave_status, updateStatus_status]
    | false =>
        rw [hc] at h
        simp at h
  · intro item p h
    rcases h with h | h <;>
      cases hc : item.color <;> cases hs : item.size <;> simp_all [restoreItemStock]
  · intro item p cc ss hc hs
    simp [restoreItemStock, hc, hs]
  · intro h
    rw [← hstat o.status] at h
    have hc : o.canBeCancelled = false := by
      unfold Order.canBeCancelled
      exact Bool.not_eq_true _ ▸ (by simpa using h)
    simp [cancelRoute, hc]

/-- Witness for C4: cancelling the saved pending order over the stock-5
product succeeds, records `cancelled`, and restores the two units (stock 7). -/
theorem cancelRoute_spec_witness :
    (ordSaved.status = OrderStatus.pending ∨ ordSaved.status = OrderStatus.processing
      ∨ ordSaved.status = OrderStatus.shipped)
    ∧ isOkE (cancelRoute ordSaved [prodD] 0 0 0 0 0) = true
    ∧ ordSavedCancelled.status = OrderStatus.cancelled
    ∧ prodsRestored = restoreStock ordSaved.items [prodD]
    ∧ prodsRestored.map (fun p => p.stock) = [7] := by
  have h := cancelRoute_spec ordSaved [prodD] 0 0 0 0 0
  have hok : cancelRoute ordSaved [prodD] 0 0 0 0 0
      = Except.ok (ordSavedCancelled, prodsRestored) := rfl
  have h2 := h.2.1 ordSavedCancelled prodsRestored hok
  exact ⟨Or.inl rfl, h.1.mpr (Or.inl rfl), h2.1, h2.2, by decide⟩

/-- C5 fails on the code: a first refund request on a delivered order
succeeds and leaves a pending refund, and a second request while the first is
still pending succeeds again, because the route only rejects an existing
refund whose status differs from `pending`. -/
theorem refund_second_call_succeeds :
    refundRoute ordD5 "damaged" none = Except.ok ordD5a
    ∧ (ordD5a.refundInfo.map (fun r => r.status)) = some RefundStatus.pending
    ∧ isOkE (refundRoute ordD5a "again" none) = true := ⟨rfl, rfl, rfl⟩

/-- C5 amended: with a non-empty reason, `requestRefund` succeeds exactly
when the status is delivered or shipped and any existing refund request has
status `pending`; on success it stores a pending refund whose amount
defaults to the order total when no amount is given, and is the given amount
when that is non-zero.  A second call while the first request is pending
succeeds again, overwriting it; only a non-pending existing refund blocks a
request. -/
theorem refundRoute_spec (o : Order) (reason : String) (amount : Option ℚ)
    (hr : ¬ strTrim reason = "") :
    (isOkE (refundRoute o reason amount) = true
        ↔ ((o.status = OrderStatus.delivered ∨ o.status = OrderStatus.shipped)
            ∧ ∀ r, o.refundInfo = some r → r.status = RefundStatus.pending))
    ∧ (∀ o', refundRoute o reason none = Except.ok o' →
        o'.refundInfo = some { amount := o.totalPrice, reason := reason,
                               status := RefundStatus.pending })
    ∧ (∀ o' a, a ≠ 0 → refundRoute o reason (some a) = Except.ok o' →
        o'.refundInfo = some { amount := a, reason := reason,
                               status := RefundStatus.pending }) := by
  have hA : (o.canBeRefunded = true)
      ↔ (o.status = OrderStatus.delivered ∨ o.status = OrderStatus.shipped) := by
    unfold Order.canBeRefunded
    have hstat2 : ∀ s : OrderStatus,
        (([OrderStatus.delivered, OrderStatus.shipped]).contains s = true)
          ↔ (s = OrderStatus.delivered ∨ s = OrderStatus.shipped) := by
      intro s
      cases s <;> decide
    exact hstat2 o.status
  have hB : ((match o.refundInfo with
        | some r => decide (r.status ≠ RefundStatus.pending)
        | none => false) = false)
      ↔ (∀ r, o.refundInfo = some r → r.status = RefundStatus.pending) := by
    cases hri : o.refundInfo with
    | none => simp
    | some r => simp
  refine ⟨?_, ?_, ?_⟩
  · rw [← hA, ← hB]
    unfold refundRoute
    rw [if_neg hr]
    cases hcr : o.canBeRefunded <;>
      cases hg : (match o.refundInfo with
          | some r => decide (r.status ≠ RefundStatus.pending)
          | none => false) <;>
      simp [isOkE, hcr, hg]
  · intro o' h
    unfold refundRoute at h
    rw [if_neg hr] at h
    split at h
    · exact absurd h (by simp)
    · split at h
      · exact absurd h (by simp)
      · rw [Except.ok.injEq] at h
        subst h
        rfl
  · intro o' a ha h
    unfold refundRoute at h
    rw [if_neg hr] at h
    split at h
    · exact absurd h (by simp)
    · split at h
      · exact absurd h (by simp)
      · rw [Except.ok.injEq] at h
        subst h
        simp [ha]
  
/-- Witness for C5 amended: a delivered order with no existing refund and a
non-empty reason gets a pending refund over the order total. -/
theorem refundRoute_spec_witness :
    ¬ (strTrim "damaged" = "")
    ∧ isOkE (refundRoute ordD5 "damaged" none) = true
    ∧ ordD5a.refundInfo = some { amount := ordD5.totalPrice, reason := "damaged",
                                 status := RefundStatus.pending } := by
  have h := refundRoute_spec ordD5 "damaged" none (by decide)
  refine ⟨by decide, ?_, ?_⟩
  · refine h.1.mpr ⟨Or.inl rfl, ?_⟩
    intro r hri
    exact Option.noConfusion hri
  · exact h.2.1 ordD5a rfl

/-- C6 fails on the code: the checkout route passes a client-supplied
orderNumber through verbatim, so the first order of 2024-06-15 can carry the
number HELLO instead of the derived 240615001. -/
theorem clientOrderNumber_kept :
    ((createOrder reqC3 (some "HELLO") [prodC3] 2024 6 15 0 0).toOption.map
        (fun r => r.1.orderNumber)) = some (some "HELLO")
    ∧ genOrderNumber 2024 6 15 0 = "240615001"
    ∧ ("HELLO" : String) ≠ "240615001" :=
  ⟨rfl, by decide, by decide⟩

/-- C6 amended: when the request carries no orderNumber, the saved order's
number is derived from the creation date and the count of same-day orders —
YYMMDD followed by count+1 zero-padded to three digits, so the 1st order of
2024-06-15 gets 240615001 and the 2nd 240615002; but a client-supplied
orderNumber is stored verbatim, so numbers are not always derived and
uniqueness rests on the schema's unique index alone. -/
theorem orderNumber_spec (items : List ReqItem) (ps : List Product)
    (year month day count now : Nat) :
    (∀ o ps', createOrder items none ps year month day count now = Except.ok (o, ps') →
        o.orderNumber = some (genOrderNumber year month day count))
    ∧ (∀ s o ps', createOrder items (some s) ps year month day count now
          = Except.ok (o, ps') → o.orderNumber = some s)
    ∧ genOrderNumber 2024 6 15 0 = "240615001"
    ∧ genOrderNumber 2024 6 15 1 = "240615002" := by
  refine ⟨?_, ?_, by decide, by decide⟩
  · intro o ps' h
    unfold createOrder at h
    split at h
    · exact absurd h (by simp)
    · split at h
      · exact absurd h (by simp)
      · rw [Except.ok.injEq, Prod.mk.injEq] at h
        obtain ⟨h1, h2⟩ := h
        subst h1
        rfl
  · intro s o ps' h
    unfold createOrder at h
    split at h
    · exact absurd h (by simp)
    · split at h
      · exact absurd h (by simp)
      · rw [Except.ok.injEq, Prod.mk.injEq] at h
        obtain ⟨h1, h2⟩ := h
        subst h1
        rfl

/-- Witness for C6 amended: the first order of 2024-06-15 created without a
client orderNumber carries the generated number 240615001. -/
theorem orderNumber_spec_witness :
    ordC6.orderNumber = some (genOrderNumber 2024 6 15 0)
    ∧ ordC6.orderNumber = some "240615001" := by
  have h := (orderNumber_spec reqC3 [prodC3] 2024 6 15 0 0).1 ordC6 [prodC3] rfl
  exact ⟨h, by decide⟩

/-- C7 fails on the code: one admin status update from pending to processing
appends two history entries, not one — `updateStatus` pushes an entry
carrying the note and the pre-save hook pushes a second entry without a note
because the status path is modified. -/
theorem statusRoute_double_history :
    ordSaved.statusHistory.map (fun e => (e.status, e.note))
      = [(OrderStatus.pending, none)]
    ∧ ((statusRoute ordSaved "processing" "start" 1 2024 6 15 0).toOption.map
        (fun o => o.statusHistory.map (fun e => (e.status, e.time, e.note))))
      = some [(OrderStatus.pending, 0, none),
              (OrderStatus.processing, 1, some "start"),
              (OrderStatus.processing, 1, none)] := by decide

/-- C8 fails on the code: the admin status route happily moves an order out
of `cancelled` back to `pending`. -/
theorem statusRoute_leaves_cancelled :
    ordCancelled.status = OrderStatus.cancelled
    ∧ ((statusRoute ordCancelled "pending" "" 0 0 0 0 0).toOption.map (fun o => o.status))
        = some OrderStatus.pending := ⟨rfl, rfl⟩

/-- C8 amended: the status route accepts any of the six enumerated statuses
regardless of the order's current status — it succeeds exactly when the
status string parses, and on success the order's status becomes the
requested one; no transition-graph validation restricts leaving `cancelled`,
`refunded` or `delivered`. -/
theorem statusRoute_spec (o : Order) (s note : String) (now year month day count : Nat) :
    (isOkE (statusRoute o s note now year month day count) = true
        ↔ (parseStatus s).isSome = true)
    ∧ (∀ o' st, parseStatus s = some st →
        statusRoute o s note now year month day count = Except.ok o' → o'.status = st) := by
  constructor
  · cases hp : parseStatus s <;> simp [statusRoute, hp, isOkE]
  · intro o' st hp h
    unfold statusRoute at h
    rw [hp] at h
    cases st <;>
      · have h2 := Except.ok.inj h
        subst h2
        rw [preSave_status]
        exact updateStatus_status _ _ _ _

/-- Witness for C8 amended: the cancelled order moved to pending. -/
theorem statusRoute_spec_witness :
    (parseStatus "pending").isSome = true
    ∧ isOkE (statusRoute ordCancelled "pending" "" 0 0 0 0 0) = true
    ∧ ordCancelledToPending.status = OrderStatus.pending := by
  have h := statusRoute_spec ordCancelled "pending" "" 0 0 0 0 0
  exact ⟨by decide, h.1.mpr (by decide),
    h.2 ordCancelledToPending OrderStatus.pending (by decide) rfl⟩

/-- C9: when the cart already contains an item with the same product and
variant — the first such item, preceded only by non-matching items — addItem
adds the requested quantity to that item's quantity clamped at the item's
maxQuantity, without appending a second line item; when no item matches it
appends a fresh snapshot whose maxQuantity is the smaller of the product's
stock and the default cap 10. -/
theorem addItem_spec (c : Cart) (p : Product) (q : Int) (color size : Option String) :
    (∀ pre old post,
        c.items = pre ++ old :: post →
        (∀ y ∈ pre, itemMatches p.id color size y = false) →
        itemMatches p.id color size old = true →
        (c.addItem p q color size).items =
          pre ++ { old with quantity := min (old.quantity + q) old.maxQuantity } :: post)
    ∧ ((∀ y ∈ c.items, itemMatches p.id color size y = false) →
        (c.addItem p q color size).items = c.items ++ [newLineItem p q color size])
    ∧ (newLineItem p q color size).maxQuantity = min p.stock 10 := by
  refine ⟨?_, ?_, rfl⟩
  · intro pre old post hsplit hpre hold
    have hany : c.items.any (itemMatches p.id color size) = true := by
      rw [hsplit]
      exact any_true_of_split _ pre old post hold
    unfold Cart.addItem
    rw [if_pos hany, calculateTotals_items, hsplit,
      updateFirst_split _ _ pre old post hpre hold]
    simp [if_flip_min]
  · intro hno
    have hany : c.items.any (itemMatches p.id color size) = false :=
      any_false_of_forall _ _ hno
    unfold Cart.addItem
    rw [if_neg (by simp [hany]), calculateTotals_items]

/-- Witness for C9: adding 4 units to a cart holding 3 units of the same
Red/M item with maxQuantity 5 clamps it to 5 without a second line; adding
to an empty cart appends the snapshot. -/
theorem addItem_spec_witness :
    (cart9.addItem p9 4 (some "Red") (some "M")).items
      = [{ item9 with quantity := min (item9.quantity + 4) item9.maxQuantity }]
    ∧ (cart9.addItem p9 4 (some "Red") (some "M")).items.map (fun i => i.quantity) = [5]
    ∧ (cartE.addItem p9 4 (some "Red") (some "M")).items
      = cartE.items ++ [newLineItem p9 4 (some "Red") (some "M")] := by
  have h1 := (addItem_spec cart9 p9 4 (some "Red") (some "M")).1 [] item9 [] rfl
    (by intro y hy; exact absurd hy (List.not_mem_nil y)) (by decide)
  have h2 := (addItem_spec cartE p9 4 (some "Red") (some "M")).2.1
    (by intro y hy; exact absurd hy (List.not_mem_nil y))
  exact ⟨by simpa using h1, by decide, h2⟩

/-- C10 (implicit): when addItem appends a new line item, the requested
quantity is stored without being clamped to the item's maxQuantity — the
clamp applies only when merging into an existing line item. -/
theorem addItem_append_unclamped (c : Cart) (p : Product) (q : Int)
    (color size : Option String) (hq : 1 ≤ q)
    (hno : ∀ y ∈ c.items, itemMatches p.id color size y = false) :
    ((c.addItem p q color size).items.getLast?).map (fun i => i.quantity) = some q := by
  have hany : c.items.any (itemMatches p.id color size) = false :=
    any_false_of_forall _ _ hno
  unfold Cart.addItem
  rw [if_neg (by simp [hany]), calculateTotals_items]
  simp [newLineItem]

/-- Witness for C10: a single addItem of 12 units of a stock-3 product into
an empty cart stores quantity 12 even though min(stock, 10) is 3. -/
theorem addItem_append_unclamped_witness :
    (1 : Int) ≤ 12 ∧ min prodB.stock 10 < 12
    ∧ ((cartE.addItem prodB 12 (some "Red") (some "M")).items.getLast?).map
        (fun i => i.quantity) = some 12 := by
  refine ⟨by decide, by decide, ?_⟩
  exact addItem_append_unclamped cartE prodB 12 (some "Red") (some "M") (by decide)
    (by intro y hy; exact absurd hy (List.not_mem_nil y))
